import Mathlib

/-!
Shallow embedding of `core/views.py` from the brasil.io repository
(`queryset_to_csv` and the `dataset_detail` request pipeline), together
with theorems checking the specified behaviour.

Conventions of the embedding:
* A data row (`getattr(row, field.name)`) is a total function `String → String`.
* Django's `QueryDict` is an association list `List (String × List String)`
  with unique keys and non-empty value lists; `pop(key, default)` returns the
  whole value list, and indexing `[0]` takes the head (it is total on real
  `QueryDict`s, whose value lists are never empty; here `headD ""`).
* Exceptions (`Dataset.DoesNotExist`, `Table.DoesNotExist`, `ValueError`
  from `int(...)`) are `Option`/match failures.
* External collaborators (the obfuscation transform, the querystring parser
  and the composed row source) are parameters of the view function, since
  the view only forwards their results.
-/

set_option autoImplicit false

namespace CoreViews

/-- One column descriptor of a dynamic table (`core.models.Field` as consumed
by `views.py`): a name, the show-on-frontend flag, the obfuscate flag. -/
structure Field where
  name : String
  show_on_frontend : Bool
  obfuscate : Bool
deriving DecidableEq, Repr

/-- A single data row: attribute lookup by field name (`getattr(row, name)`). -/
abbrev Row : Type := String → String

/-- Python dict assignment `m[k] = v` on an insertion-ordered dict, viewed as
an association list: an existing key keeps its position and gets the new
value, a new key is appended at the end. -/
def dictInsert (m : List (String × String)) (k v : String) : List (String × String) :=
  if m.any (fun p => p.1 == k) then
    m.map (fun p => if p.1 == k then (p.1, v) else p)
  else
    m ++ [(k, v)]

/-- The per-row loop body of `queryset_to_csv`: walk `fields` in order,
skip a field that is not shown on the frontend or is named `"search_data"`,
otherwise store the (possibly obfuscated) value under the field's name. -/
def rowDataAux (obf : String → String) (r : Row) (acc : List (String × String)) :
    List Field → List (String × String)
  | [] => acc
  | f :: fs =>
    if !f.show_on_frontend || f.name == "search_data" then
      rowDataAux obf r acc fs
    else
      rowDataAux obf r
        (dictInsert acc f.name (if f.obfuscate then obf (r f.name) else r f.name)) fs

/-- The ordered mapping `row_data` built by `queryset_to_csv` for one row. -/
def rowData (obf : String → String) (fields : List Field) (r : Row) :
    List (String × String) :=
  rowDataAux obf r [] fields

/-- Python `row_data[k]` on the dict above (total here with default `""`;
in `queryset_to_csv` the key is always present because every row is
projected through the same field list). -/
def lookupD (m : List (String × String)) (k : String) : String :=
  ((m.find? (fun p => p.1 == k)).map Prod.snd).getD ""

/-- `queryset_to_csv(data, fields)`: a generator that, on the first row,
yields the header (the keys of that row's `row_data`, in insertion order)
and then, for every row including the first, yields the row's values listed
in header order. On an empty row source it yields nothing. -/
def queryset_to_csv (obf : String → String) (data : List Row) (fields : List Field) :
    List (List String) :=
  match data with
  | [] => []
  | first :: rest =>
    let header := (rowData obf fields first).map Prod.fst
    header :: (first :: rest).map (fun r => header.map (fun k => lookupD (rowData obf fields r) k))

/-- The fields that survive the projection of `queryset_to_csv`: shown on the
frontend and not the dedicated search-index column `"search_data"`. -/
def visibleFields (fields : List Field) : List Field :=
  fields.filter (fun f => f.show_on_frontend && f.name != "search_data")

/-- The value `queryset_to_csv` emits for one visible field of one row. -/
def emitValue (obf : String → String) (f : Field) (r : Row) : String :=
  if f.obfuscate then obf (r f.name) else r f.name

/-! ## Python `int(...)` on an already-stripped string -/

/-- Continuation of Python integer-literal parsing after at least one digit:
further digits, with single underscores allowed only between digits. -/
def pyDigitsAux (acc : Nat) : List Char → Option Nat
  | [] => some acc
  | c :: cs =>
    if c.isDigit then pyDigitsAux (10 * acc + (c.toNat - 48)) cs
    else if c == '_' then
      match cs with
      | [] => none
      | d :: ds => if d.isDigit then pyDigitsAux (10 * acc + (d.toNat - 48)) ds else none
    else none

/-- A Python digit run: non-empty, starts with a digit. -/
def pyDigitsStart : List Char → Option Nat
  | [] => none
  | c :: cs => if c.isDigit then pyDigitsAux (c.toNat - 48) cs else none

/-- Python `int(s)` for a whitespace-stripped decimal string: an optional
sign followed by digits (underscores permitted between digits); anything
else raises `ValueError`, i.e. is `none`. -/
def pyInt (s : String) : Option Int :=
  match s.toList with
  | '+' :: rest => (pyDigitsStart rest).map Int.ofNat
  | '-' :: rest => (pyDigitsStart rest).map (fun n => -(Int.ofNat n : Int))
  | cs => (pyDigitsStart cs).map Int.ofNat

/-! ## QueryDict operations -/

/-- The querystring as Django's `QueryDict`: unique keys, each with its list
of values (non-empty for keys that actually occur in the URL). -/
abbrev QS : Type := List (String × List String)

/-- The value list stored under `key`, if the key is present. -/
def getValues (qs : QS) (key : String) : Option (List String) :=
  ((List.find? (fun kv => kv.1 == key) qs).map Prod.snd)

/-- Remove a key from the querystring. -/
def removeKey (qs : QS) (key : String) : QS :=
  List.filter (fun kv => kv.1 != key) qs

/-- `querystring.pop(key, default)`: the full value list (or the default when
the key is absent), together with the querystring with the key removed. -/
def popParam (qs : QS) (key : String) (dflt : List String) : List String × QS :=
  ((getValues qs key).getD dflt, removeKey qs key)

/-- Python `s or dflt` for strings: the empty string is falsy. -/
def strOr (s dflt : String) : String :=
  if s == "" then dflt else s

/-- Python `s.strip()`: drop leading and trailing whitespace. -/
def pyStrip (s : String) : String :=
  ⟨(((s.toList.dropWhile Char.isWhitespace).reverse.dropWhile Char.isWhitespace).reverse)⟩

/-- Python `s.lower()` (ASCII case folding, which is all the view compares). -/
def pyLower (s : String) : String :=
  ⟨s.toList.map Char.toLower⟩

/-- Python `needle in hay` prefix test on character lists. -/
def listStarts : List Char → List Char → Bool
  | [], _ => true
  | _ :: _, [] => false
  | a :: as, b :: bs => a == b && listStarts as bs

/-- Python `needle in hay` substring test on character lists (the empty
needle is contained in everything). -/
def listHasSub (needle : List Char) : List Char → Bool
  | [] => listStarts needle []
  | b :: bs => listStarts needle (b :: bs) || listHasSub needle bs

/-- Python `needle in hay` on strings. -/
def strIn (needle hay : String) : Bool :=
  listHasSub needle.toList hay.toList

/-! ## Settings, metadata and the request -/

/-- The Django settings consumed by `dataset_detail`. -/
structure Settings where
  ROWS_PER_PAGE : Nat
  CSV_EXPORT_MAX_ROWS : Nat
  BLOCKED_AGENTS : List String

/-- The slice of `core.models.Table` that `dataset_detail` reads: its name,
whether it is hidden, and its field descriptors. -/
structure TableMeta where
  name : String
  hidden : Bool
  fields : List Field
deriving DecidableEq, Repr

/-- The slice of `core.models.Dataset` that `dataset_detail` reads. -/
structure DatasetMeta where
  tables : List TableMeta
  default_table : String
  files_url : String
deriving DecidableEq, Repr

/-- Modelled from the spec: `Dataset.get_table(name, allow_hidden)` lives in
`core/models.py`, which is not part of the sources here. Per the spec's
Dynamic Table Resolver, it resolves a table by name within the dataset,
hidden tables are visible only with elevated privilege, and an unresolved
name raises `Table.DoesNotExist` — here `none`. -/
def DatasetMeta.get_table (d : DatasetMeta) (tablename : String) (allow_hidden : Bool) :
    Option TableMeta :=
  List.find? (fun t => t.name == tablename && (allow_hidden || !t.hidden)) d.tables

/-- The per-request inputs `dataset_detail` reads: the query parameters,
`request.headers.get("User-Agent", "")`, and `request.user.is_superuser`. -/
structure Request where
  params : QS
  user_agent : String
  is_superuser : Bool

/-- `reverse("core:dataset-table-detail", kwargs={slug, tablename})`. -/
def datasetTableUrl (slug tablename : String) : String :=
  "/dataset/" ++ slug ++ "/" ++ tablename

/-- The responses `dataset_detail` can produce. -/
inductive Response where
  /-- `redirect(...)` to a URL. -/
  | redirect (url : String)
  /-- `render(request, "404.html", {"message": message}, status=404)`. -/
  | notFound (message : String)
  /-- `render(request, "4xx.html", ..., status=400)` with the
  `400-csv-without-filters.html` snippet and the dataset's files URL. -/
  | badRequestNoFilters (download_url : String)
  /-- `render(request, "4xx.html", {"message": "Max rows exceeded."}, status=400)`. -/
  | badRequestMaxRows
  /-- The streaming CSV response: the rows yielded by `queryset_to_csv`. -/
  | csv (rows : List (List String))
  /-- `render(request, "core/dataset-detail.html", context)`: the page number
  and items-per-page handed to `Paginator`, and the total count. -/
  | html (page : Int) (items_per_page : Int) (total_count : Nat)
deriving DecidableEq, Repr

/-- The HTTP status code of each response. -/
def Response.status : Response → Nat
  | .redirect _ => 302
  | .notFound _ => 404
  | .badRequestNoFilters _ => 400
  | .badRequestMaxRows => 400
  | .csv _ => 200
  | .html _ _ _ => 200

/-- The observable outcome of one `dataset_detail` call: the response and
whether `log_blocked_request(request, 404)` was invoked. -/
structure ViewResult where
  response : Response
  logged_blocked : Bool
deriving DecidableEq, Repr

/-- Truthiness of the two query expressions returned by the external
`parse_querystring` (the third component, `order_by`, only flows into the
row source and never into a branch of this view). -/
structure ParsedQuery where
  query_truthy : Bool
  search_truthy : Bool

/-! ## The control parameters popped by `dataset_detail`

The view pops `page`, `items` and `format` in that order from a copy of
`request.GET`; the remaining entries are handed to `parse_querystring`. -/

/-- `page_number = querystring.pop("page", ["1"])[0].strip() or "1"`. -/
def pageNumberOf (params : QS) : String :=
  strOr (pyStrip ((popParam params "page" ["1"]).1.headD "")) "1"

/-- The querystring after popping `page`. -/
def qsAfterPage (params : QS) : QS :=
  (popParam params "page" ["1"]).2

/-- `items_per_page = querystring.pop("items", [str(ROWS_PER_PAGE)])[0].strip()
or str(ROWS_PER_PAGE)` (still a string at this point). -/
def itemsStrOf (S : Settings) (params : QS) : String :=
  strOr
    (pyStrip ((popParam (qsAfterPage params) "items" [toString S.ROWS_PER_PAGE]).1.headD ""))
    (toString S.ROWS_PER_PAGE)

/-- The querystring after popping `page` and `items`. -/
def qsAfterItems (S : Settings) (params : QS) : QS :=
  (popParam (qsAfterPage params) "items" [toString S.ROWS_PER_PAGE]).2

/-- The value list popped for `format` (default `[""]`). -/
def formatValsOf (S : Settings) (params : QS) : List String :=
  (popParam (qsAfterItems S params) "format" [""]).1

/-- `download_csv = querystring.pop("format", [""]) == ["csv"]`: the whole
value list must equal `["csv"]`. -/
def downloadCsvOf (S : Settings) (params : QS) : Bool :=
  formatValsOf S params == ["csv"]

/-- The filter/search parameters left after the three pops, which are
forwarded to `parse_querystring`. -/
def remainingParams (S : Settings) (params : QS) : QS :=
  (popParam (qsAfterItems S params) "format" [""]).2

/-- `block_agent = any(True for agent in settings.BLOCKED_AGENTS if
agent.lower() in user_agent.lower())`. -/
def blockAgentOf (S : Settings) (user_agent : String) : Bool :=
  S.BLOCKED_AGENTS.any (fun agent => strIn (pyLower agent) (pyLower user_agent))

/-! ## The `dataset_detail` view -/

/-- `dataset_detail(request, slug, tablename="")` from `core/views.py`.

External collaborators are passed in as parameters: `datasets` is
`Dataset.objects.get(slug=...)` (`none` = `Dataset.DoesNotExist`), `obf` is
the `obfuscate` template helper, `parse_qs` is
`TableModel.objects.parse_querystring`, and `composed` is
`TableModel.objects.composed_query` yielding the lazy row source, whose
`count()` is the length of the returned list. -/
def dataset_detail (S : Settings) (obf : String → String)
    (datasets : String → Option DatasetMeta)
    (parse_qs : QS → ParsedQuery) (composed : ParsedQuery → List Row)
    (req : Request) (slug : String) (tablename : String := "") : ViewResult :=
  match datasets slug with
  | none => ⟨.notFound "Dataset does not exist", false⟩
  | some dataset =>
    if tablename == "" then
      ⟨.redirect (datasetTableUrl slug dataset.default_table), false⟩
    else
      let allow_hidden := req.is_superuser
      match dataset.get_table tablename allow_hidden with
      | none =>
        -- log the 404 request only if a hidden table exists; a second
        -- `Table.DoesNotExist` here is swallowed by the inner `except` block
        ⟨.notFound "Table does not exist", (dataset.get_table tablename true).isSome⟩
      | some table =>
        let page_number := pageNumberOf req.params
        let items_str := itemsStrOf S req.params
        let download_csv := downloadCsvOf S req.params
        match pyInt page_number with
        | none => ⟨.notFound "Invalid page number.", false⟩
        | some page =>
          match pyInt items_str with
          | none => ⟨.notFound "Invalid items per page.", false⟩
          | some items0 =>
            let items_per_page : Int := min items0 1000
            let fields := table.fields
            let parsed := parse_qs (remainingParams S req.params)
            let all_data := composed parsed
            if download_csv then
              let user_agent := req.user_agent
              let block_agent := blockAgentOf S user_agent
              if !(parsed.query_truthy || parsed.search_truthy)
                  || user_agent == "" || block_agent then
                ⟨.badRequestNoFilters dataset.files_url, false⟩
              else if all_data.length > S.CSV_EXPORT_MAX_ROWS then
                ⟨.badRequestMaxRows, false⟩
              else
                ⟨.csv (queryset_to_csv obf all_data fields), false⟩
            else
              ⟨.html page items_per_page all_data.length, false⟩

/-! ## Characterization of `rowData` and `queryset_to_csv` -/

/-- One step of the projection loop with a field that is skipped leaves the
visible-field list unchanged. -/
lemma visibleFields_cons_skip (f : Field) (fs : List Field)
    (h : (!f.show_on_frontend || f.name == "search_data") = true) :
    visibleFields (f :: fs) = visibleFields fs := by
  simp only [visibleFields, List.filter_cons]
  have : (f.show_on_frontend && f.name != "search_data") = false := by
    cases hs : f.show_on_frontend <;> simp_all [bne]
  simp [this]

/-- One step of the projection loop with a visible field conses it. -/
lemma visibleFields_cons_keep (f : Field) (fs : List Field)
    (h : (!f.show_on_frontend || f.name == "search_data") = false) :
    visibleFields (f :: fs) = f :: visibleFields fs := by
  simp only [visibleFields, List.filter_cons]
  have : (f.show_on_frontend && f.name != "search_data") = true := by
    cases hs : f.show_on_frontend <;> simp_all [bne]
  simp [this]

/-- With pairwise-distinct field names, the projection loop appends one
entry per visible field, in field order, to whatever accumulator it starts
from — provided no visible field's name is already present there. -/
lemma rowDataAux_eq (obf : String → String) (r : Row) (fields : List Field)
    (acc : List (String × String))
    (hnd : (fields.map Field.name).Nodup)
    (hdisj : ∀ f ∈ fields, acc.any (fun p => p.1 == f.name) = false) :
    rowDataAux obf r acc fields =
      acc ++ (visibleFields fields).map (fun f => (f.name, emitValue obf f r)) := by
  induction fields generalizing acc with
  | nil => simp [rowDataAux, visibleFields]
  | cons f fs ih =>
    have hnd' : (fs.map Field.name).Nodup := (List.nodup_cons.mp hnd).2
    have hnotmem : f.name ∉ fs.map Field.name := (List.nodup_cons.mp hnd).1
    by_cases hskip : (!f.show_on_frontend || f.name == "search_data") = true
    · rw [rowDataAux, if_pos hskip, visibleFields_cons_skip f fs hskip]
      exact ih acc hnd' (fun g hg => hdisj g (List.mem_cons_of_mem f hg))
    · have hskip' : (!f.show_on_frontend || f.name == "search_data") = false :=
        Bool.eq_false_iff.mpr hskip
      rw [rowDataAux, if_neg (by simp [hskip']),
        visibleFields_cons_keep f fs hskip']
      have hins : dictInsert acc f.name
          (if f.obfuscate then obf (r f.name) else r f.name) =
          acc ++ [(f.name, emitValue obf f r)] := by
        rw [dictInsert, if_neg (by simp [hdisj f (List.mem_cons_self f fs)])]
        rfl
      rw [hins, ih]
      · simp
      · exact hnd'
      · intro g hg
        have hne : (f.name == g.name) = false := by
          have : f.name ≠ g.name := by
            intro hEq
            exact hnotmem (hEq ▸ List.mem_map_of_mem Field.name hg)
          simpa using this
        simp [List.any_append, hdisj g (List.mem_cons_of_mem f hg), hne]

/-- With pairwise-distinct field names, `row_data` is exactly the visible
fields, in order, each mapped to its (possibly obfuscated) value. -/
lemma rowData_eq (obf : String → String) (fields : List Field) (r : Row)
    (hnd : (fields.map Field.name).Nodup) :
    rowData obf fields r =
      (visibleFields fields).map (fun f => (f.name, emitValue obf f r)) := by
  simpa using rowDataAux_eq obf r fields [] hnd (by simp)

/-- Looking every key of an association list built over a name-distinct field
list back up recovers the stored values, in order. -/
lemma map_lookupD (v : Field → String) (l : List Field)
    (hnd : (l.map Field.name).Nodup) :
    (l.map Field.name).map
        (fun k => lookupD (l.map (fun f => (f.name, v f))) k) = l.map v := by
  induction l with
  | nil => simp
  | cons f fs ih =>
    have hnd' : (fs.map Field.name).Nodup := (List.nodup_cons.mp hnd).2
    have hnotmem : f.name ∉ fs.map Field.name := (List.nodup_cons.mp hnd).1
    have hhead : lookupD ((f.name, v f) :: fs.map (fun g => (g.name, v g))) f.name
        = v f := by
      simp [lookupD, List.find?]
    have htail : ∀ k ∈ fs.map Field.name,
        lookupD ((f.name, v f) :: fs.map (fun g => (g.name, v g))) k
          = lookupD (fs.map (fun g => (g.name, v g))) k := by
      intro k hk
      have : (f.name == k) = false := by
        have : f.name ≠ k := fun hEq => hnotmem (hEq ▸ hk)
        simpa using this
      simp [lookupD, List.find?, this]
    rw [List.map_cons, List.map_cons, List.map_cons]
    rw [List.map_congr_left htail, hhead, ih hnd', List.map_cons]

/-- The names of the visible fields are distinct whenever all field names
are distinct. -/
lemma visible_names_nodup (fields : List Field)
    (hnd : (fields.map Field.name).Nodup) :
    ((visibleFields fields).map Field.name).Nodup := by
  have hsub : List.Sublist ((visibleFields fields).map Field.name)
      (fields.map Field.name) :=
    (List.filter_sublist fields).map Field.name
  exact hnd.sublist hsub

/-- Closed form of `queryset_to_csv` on a non-empty row source with
name-distinct fields: the header of visible field names followed by one
projected line per row. -/
lemma queryset_to_csv_eq (obf : String → String) (fields : List Field)
    (data : List Row) (hne : data ≠ [])
    (hnd : (fields.map Field.name).Nodup) :
    queryset_to_csv obf data fields =
      ((visibleFields fields).map Field.name)
        :: data.map (fun r => (visibleFields fields).map (fun f => emitValue obf f r)) := by
  have hv := visible_names_nodup fields hnd
  cases data with
  | nil => exact absurd rfl hne
  | cons first rest =>
    simp only [queryset_to_csv]
    rw [rowData_eq obf fields first hnd]
    simp only [List.map_map]
    have hcomp : (Prod.fst ∘ fun f => (f.name, emitValue obf f first)) = Field.name := rfl
    rw [hcomp]
    congr 1
    apply List.map_congr_left
    intro r _
    rw [rowData_eq obf fields r hnd]
    simpa [List.map_map] using
      map_lookupD (fun f => emitValue obf f r) (visibleFields fields) hv

/-! ## Claim theorems -/

/-- C1: on every non-empty row source and every (name-distinct) field list,
`queryset_to_csv` yields the header followed by the data rows; no emitted
column is `"search_data"` or the name of a field whose show-on-frontend
flag is false; every value of a field flagged obfuscate appears with the
obfuscation transform applied (and the column never carries the raw value);
and the header's field order is the key order of the first emitted data
row, with every row's values listed in that same header order (the closed
form projects every row through the same ordered visible-field list). -/
theorem claim_C1_csv_projection (obf : String → String) (fields : List Field)
    (data : List Row) (hne : data ≠ [])
    (hnd : (fields.map Field.name).Nodup) :
    queryset_to_csv obf data fields =
      ((visibleFields fields).map Field.name)
        :: data.map (fun r => (visibleFields fields).map (fun f => emitValue obf f r)) ∧
    "search_data" ∉ (visibleFields fields).map Field.name ∧
    (∀ f ∈ fields, f.show_on_frontend = false →
        f.name ∉ (visibleFields fields).map Field.name) ∧
    (∀ f ∈ visibleFields fields, f.obfuscate = true → ∀ r ∈ data,
        (f.name, obf (r f.name)) ∈
          ((visibleFields fields).map Field.name).zip
            ((visibleFields fields).map (fun g => emitValue obf g r)) ∧
        (∀ p ∈ ((visibleFields fields).map Field.name).zip
            ((visibleFields fields).map (fun g => emitValue obf g r)),
          p.1 = f.name → p.2 = obf (r f.name))) := by
  have hv := visible_names_nodup fields hnd
  refine ⟨queryset_to_csv_eq obf fields data hne hnd, ?_, ?_, ?_⟩
  · intro hmem
    rcases List.mem_map.mp hmem with ⟨f, hf, hname⟩
    have := (List.mem_filter.mp hf).2
    rw [hname] at this
    simp [bne] at this
  · intro f hf hshow hmem
    rcases List.mem_map.mp hmem with ⟨g, hg, hname⟩
    have hgfields : g ∈ fields := (List.mem_filter.mp hg).1
    have hgshow : g.show_on_frontend = true := by
      have hpred := (List.mem_filter.mp hg).2
      simp only [Bool.and_eq_true] at hpred
      exact hpred.1
    have : g = f := List.inj_on_of_nodup_map hnd hgfields hf hname
    rw [this] at hgshow
    exact absurd hgshow (by simp [hshow])
  · intro f hf hobf r _
    have hzip : ((visibleFields fields).map Field.name).zip
        ((visibleFields fields).map (fun g => emitValue obf g r)) =
        (visibleFields fields).map (fun g => (g.name, emitValue obf g r)) :=
      List.zip_map' Field.name (fun g => emitValue obf g r) (visibleFields fields)
    constructor
    · rw [hzip]
      have : (f.name, obf (r f.name)) = (f.name, emitValue obf f r) := by
        simp [emitValue, hobf]
      rw [this]
      exact List.mem_map_of_mem _ hf
    · intro p hp hfst
      rw [hzip] at hp
      rcases List.mem_map.mp hp with ⟨g, hg, hpg⟩
      have hname : g.name = f.name := by rw [← hpg] at hfst; exact hfst
      have : g = f := List.inj_on_of_nodup_map hv hg hf hname
      rw [← hpg, this]
      simp [emitValue, hobf]

/-- Witness for C1 at a concrete input: a shown plain field, a shown
obfuscated field, the search-index field and a hidden field, over two
concrete rows. -/
theorem claim_C1_csv_projection_witness :
    ([(fun _ => "x"), (fun n => n)] : List Row) ≠ [] ∧
    (([⟨"city", true, false⟩, ⟨"document", true, true⟩, ⟨"search_data", true, false⟩,
        ⟨"internal", false, false⟩] : List Field).map Field.name).Nodup ∧
    (queryset_to_csv (fun s => String.append "*" s)
        [(fun _ => "x"), (fun n => n)]
        [⟨"city", true, false⟩, ⟨"document", true, true⟩, ⟨"search_data", true, false⟩,
          ⟨"internal", false, false⟩] =
      ((visibleFields [⟨"city", true, false⟩, ⟨"document", true, true⟩,
          ⟨"search_data", true, false⟩, ⟨"internal", false, false⟩]).map Field.name)
        :: ([(fun _ => "x"), (fun n => n)] : List Row).map
          (fun r => (visibleFields [⟨"city", true, false⟩, ⟨"document", true, true⟩,
            ⟨"search_data", true, false⟩, ⟨"internal", false, false⟩]).map
              (fun f => emitValue (fun s => String.append "*" s) f r)) ∧
    "search_data" ∉ (visibleFields [⟨"city", true, false⟩, ⟨"document", true, true⟩,
        ⟨"search_data", true, false⟩, ⟨"internal", false, false⟩]).map Field.name ∧
    (∀ f ∈ ([⟨"city", true, false⟩, ⟨"document", true, true⟩, ⟨"search_data", true, false⟩,
        ⟨"internal", false, false⟩] : List Field), f.show_on_frontend = false →
        f.name ∉ (visibleFields [⟨"city", true, false⟩, ⟨"document", true, true⟩,
          ⟨"search_data", true, false⟩, ⟨"internal", false, false⟩]).map Field.name) ∧
    (∀ f ∈ visibleFields [⟨"city", true, false⟩, ⟨"document", true, true⟩,
        ⟨"search_data", true, false⟩, ⟨"internal", false, false⟩], f.obfuscate = true →
      ∀ r ∈ ([(fun _ => "x"), (fun n => n)] : List Row),
        (f.name, (fun s => String.append "*" s) (r f.name)) ∈
          ((visibleFields [⟨"city", true, false⟩, ⟨"document", true, true⟩,
              ⟨"search_data", true, false⟩, ⟨"internal", false, false⟩]).map Field.name).zip
            ((visibleFields [⟨"city", true, false⟩, ⟨"document", true, true⟩,
              ⟨"search_data", true, false⟩, ⟨"internal", false, false⟩]).map
                (fun g => emitValue (fun s => String.append "*" s) g r)) ∧
        (∀ p ∈ ((visibleFields [⟨"city", true, false⟩, ⟨"document", true, true⟩,
              ⟨"search_data", true, false⟩, ⟨"internal", false, false⟩]).map Field.name).zip
            ((visibleFields [⟨"city", true, false⟩, ⟨"document", true, true⟩,
              ⟨"search_data", true, false⟩, ⟨"internal", false, false⟩]).map
                (fun g => emitValue (fun s => String.append "*" s) g r)),
          p.1 = f.name → p.2 = (fun s => String.append "*" s) (r f.name)))) :=
  ⟨fun h => List.noConfusion h, by decide,
    claim_C1_csv_projection (fun s => String.append "*" s)
      [⟨"city", true, false⟩, ⟨"document", true, true⟩, ⟨"search_data", true, false⟩,
        ⟨"internal", false, false⟩]
      [(fun _ => "x"), (fun n => n)]
      (fun h => List.noConfusion h) (by decide)⟩

/-! ## Concrete fixtures for witnesses of the view-level claims -/

/-- Example field list: a plain column, an obfuscated column and the
search-index column. -/
def exFields : List Field :=
  [⟨"city", true, false⟩, ⟨"document", true, true⟩, ⟨"search_data", true, false⟩]

/-- Example obfuscation transform. -/
def exObf : String → String := fun s => String.append "*" s

/-- Example visible table. -/
def exTable : TableMeta := ⟨"caso", false, exFields⟩

/-- Example hidden table. -/
def exHidden : TableMeta := ⟨"secret", true, [⟨"city", true, false⟩]⟩

/-- Example dataset holding the two tables. -/
def exDataset : DatasetMeta := ⟨[exTable, exHidden], "caso", "https://files.example"⟩

/-- Example slug lookup: only `covid19` exists. -/
def exDatasets : String → Option DatasetMeta :=
  fun s => if s == "covid19" then some exDataset else none

/-- Example settings: 20 rows per page, export ceiling of 2 rows, one
blocked user-agent token. -/
def exSettings : Settings := ⟨20, 2, ["bot"]⟩

/-- Example rows. -/
def exRow1 : Row := fun n => String.append n "1"

/-- Second example row. -/
def exRow2 : Row := fun n => String.append n "2"

/-- Example querystring parser: the filter expression is truthy exactly when
some filter parameter remains. -/
def exParse : QS → ParsedQuery := fun qs => ⟨decide (qs ≠ []), false⟩

/-- Example composed row source with two rows. -/
def exComposed : ParsedQuery → List Row := fun _ => [exRow1, exRow2]

/-- C7: a request for an existing dataset with no table name segment is
answered by a redirect to the canonical URL built from the dataset's
default table — never by a directly rendered page. -/
theorem claim_C7_default_table_redirect (S : Settings) (obf : String → String)
    (datasets : String → Option DatasetMeta) (parse_qs : QS → ParsedQuery)
    (composed : ParsedQuery → List Row) (req : Request) (slug : String)
    (d : DatasetMeta) (hd : datasets slug = some d) :
    dataset_detail S obf datasets parse_qs composed req slug "" =
      ⟨.redirect (datasetTableUrl slug d.default_table), false⟩ ∧
    (dataset_detail S obf datasets parse_qs composed req slug "").response.status = 302 := by
  constructor <;> simp [dataset_detail, hd, Response.status]

/-- Witness for C7 at a concrete request. -/
theorem claim_C7_default_table_redirect_witness :
    exDatasets "covid19" = some exDataset ∧
    (dataset_detail exSettings exObf exDatasets exParse exComposed
        ⟨[], "Mozilla", false⟩ "covid19" "" =
      ⟨.redirect (datasetTableUrl "covid19" exDataset.default_table), false⟩ ∧
    (dataset_detail exSettings exObf exDatasets exParse exComposed
        ⟨[], "Mozilla", false⟩ "covid19" "").response.status = 302) :=
  ⟨by decide,
    claim_C7_default_table_redirect exSettings exObf exDatasets exParse exComposed
      ⟨[], "Mozilla", false⟩ "covid19" exDataset (by decide)⟩

/-- C6: when the privileged-or-not table lookup fails, the response is the
rendered 404 page, and `log_blocked_request(request, 404)` is called exactly
when the secondary lookup with hidden tables allowed finds the table; when
that secondary lookup also fails the failure is swallowed and the same 404
response is still returned. -/
theorem claim_C6_hidden_table_audit (S : Settings) (obf : String → String)
    (datasets : String → Option DatasetMeta) (parse_qs : QS → ParsedQuery)
    (composed : ParsedQuery → List Row) (req : Request) (slug tablename : String)
    (d : DatasetMeta) (hd : datasets slug = some d) (htn : tablename ≠ "")
    (hmiss : d.get_table tablename req.is_superuser = none) :
    dataset_detail S obf datasets parse_qs composed req slug tablename =
      ⟨.notFound "Table does not exist", (d.get_table tablename true).isSome⟩ ∧
    (dataset_detail S obf datasets parse_qs composed req slug tablename).response.status
      = 404 := by
  constructor <;> simp [dataset_detail, hd, htn, hmiss, Response.status]

/-- Witness for C6: an anonymous request for the hidden table (the secondary
lookup succeeds, so the audit log fires) — the response is the 404 page. -/
theorem claim_C6_hidden_table_audit_witness :
    exDatasets "covid19" = some exDataset ∧
    ("secret" : String) ≠ "" ∧
    exDataset.get_table "secret"
      (Request.is_superuser ⟨[], "Mozilla", false⟩) = none ∧
    (dataset_detail exSettings exObf exDatasets exParse exComposed
        ⟨[], "Mozilla", false⟩ "covid19" "secret" =
      ⟨.notFound "Table does not exist", (exDataset.get_table "secret" true).isSome⟩ ∧
    (dataset_detail exSettings exObf exDatasets exParse exComposed
        ⟨[], "Mozilla", false⟩ "covid19" "secret").response.status = 404) :=
  ⟨by decide, by decide, by decide,
    claim_C6_hidden_table_audit exSettings exObf exDatasets exParse exComposed
      ⟨[], "Mozilla", false⟩ "covid19" "secret" exDataset
      (by decide) (by decide) (by decide)⟩

/-- C5: on an existing dataset and resolvable table, a `page` value that does
not parse as an integer yields the rendered 404 page "Invalid page number.",
and a parsing `page` together with a non-parsing `items` yields the rendered
404 page "Invalid items per page."; both are ordinary responses of the total
view function, so no exception propagates. -/
theorem claim_C5_invalid_page_items (S : Settings) (obf : String → String)
    (datasets : String → Option DatasetMeta) (parse_qs : QS → ParsedQuery)
    (composed : ParsedQuery → List Row) (req : Request) (slug tablename : String)
    (d : DatasetMeta) (table : TableMeta)
    (hd : datasets slug = some d) (htn : tablename ≠ "")
    (htab : d.get_table tablename req.is_superuser = some table) :
    (pyInt (pageNumberOf req.params) = none →
      dataset_detail S obf datasets parse_qs composed req slug tablename =
        ⟨.notFound "Invalid page number.", false⟩ ∧
      (dataset_detail S obf datasets parse_qs composed req slug tablename).response.status
        = 404) ∧
    (∀ p : Int, pyInt (pageNumberOf req.params) = some p →
      pyInt (itemsStrOf S req.params) = none →
      dataset_detail S obf datasets parse_qs composed req slug tablename =
        ⟨.notFound "Invalid items per page.", false⟩ ∧
      (dataset_detail S obf datasets parse_qs composed req slug tablename).response.status
        = 404) := by
  constructor
  · intro hpage
    constructor <;> simp [dataset_detail, hd, htn, htab, hpage, Response.status]
  · intro p hpage hitems
    constructor <;> simp [dataset_detail, hd, htn, htab, hpage, hitems, Response.status]

/-- Witness for C5: `items=x` does not parse while `page` defaults to `"1"`. -/
theorem claim_C5_invalid_page_items_witness :
    exDatasets "covid19" = some exDataset ∧
    ("caso" : String) ≠ "" ∧
    exDataset.get_table "caso"
      (Request.is_superuser ⟨[("items", ["x"])], "Mozilla", false⟩) = some exTable ∧
    ((pyInt (pageNumberOf (Request.params ⟨[("items", ["x"])], "Mozilla", false⟩)) = none →
      dataset_detail exSettings exObf exDatasets exParse exComposed
          ⟨[("items", ["x"])], "Mozilla", false⟩ "covid19" "caso" =
        ⟨.notFound "Invalid page number.", false⟩ ∧
      (dataset_detail exSettings exObf exDatasets exParse exComposed
          ⟨[("items", ["x"])], "Mozilla", false⟩ "covid19" "caso").response.status = 404) ∧
    (∀ p : Int,
      pyInt (pageNumberOf (Request.params ⟨[("items", ["x"])], "Mozilla", false⟩)) = some p →
      pyInt (itemsStrOf exSettings (Request.params ⟨[("items", ["x"])], "Mozilla", false⟩))
        = none →
      dataset_detail exSettings exObf exDatasets exParse exComposed
          ⟨[("items", ["x"])], "Mozilla", false⟩ "covid19" "caso" =
        ⟨.notFound "Invalid items per page.", false⟩ ∧
      (dataset_detail exSettings exObf exDatasets exParse exComposed
          ⟨[("items", ["x"])], "Mozilla", false⟩ "covid19" "caso").response.status = 404)) :=
  ⟨by decide, by decide, by decide,
    claim_C5_invalid_page_items exSettings exObf exDatasets exParse exComposed
      ⟨[("items", ["x"])], "Mozilla", false⟩ "covid19" "caso" exDataset exTable
      (by decide) (by decide) (by decide)⟩

/-- C4: whenever `items` parses as an integer, the page size handed to the
paginator is `min items 1000`: a value above 1000 is clamped to exactly
1000, and a value at most 1000 is used unchanged. -/
theorem claim_C4_items_clamp (S : Settings) (obf : String → String)
    (datasets : String → Option DatasetMeta) (parse_qs : QS → ParsedQuery)
    (composed : ParsedQuery → List Row) (req : Request) (slug tablename : String)
    (d : DatasetMeta) (table : TableMeta)
    (hd : datasets slug = some d) (htn : tablename ≠ "")
    (htab : d.get_table tablename req.is_superuser = some table)
    (p i : Int)
    (hpage : pyInt (pageNumberOf req.params) = some p)
    (hitems : pyInt (itemsStrOf S req.params) = some i)
    (hnocsv : downloadCsvOf S req.params = false) :
    dataset_detail S obf datasets parse_qs composed req slug tablename =
      ⟨.html p (min i 1000)
        (composed (parse_qs (remainingParams S req.params))).length, false⟩ ∧
    (1000 < i → min i 1000 = 1000) ∧
    (i ≤ 1000 → min i 1000 = i) := by
  refine ⟨?_, fun h => min_eq_right h.le, fun h => min_eq_left h⟩
  simp [dataset_detail, hd, htn, htab, hpage, hitems, hnocsv]

/-- Witness for C4: `items=5000` is clamped to 1000. -/
theorem claim_C4_items_clamp_witness :
    exDatasets "covid19" = some exDataset ∧
    ("caso" : String) ≠ "" ∧
    exDataset.get_table "caso"
      (Request.is_superuser ⟨[("items", ["5000"])], "Mozilla", false⟩) = some exTable ∧
    pyInt (pageNumberOf (Request.params ⟨[("items", ["5000"])], "Mozilla", false⟩))
      = some 1 ∧
    pyInt (itemsStrOf exSettings (Request.params ⟨[("items", ["5000"])], "Mozilla", false⟩))
      = some 5000 ∧
    downloadCsvOf exSettings (Request.params ⟨[("items", ["5000"])], "Mozilla", false⟩)
      = false ∧
    (dataset_detail exSettings exObf exDatasets exParse exComposed
        ⟨[("items", ["5000"])], "Mozilla", false⟩ "covid19" "caso" =
      ⟨.html 1 (min 5000 1000)
        (exComposed (exParse (remainingParams exSettings
          (Request.params ⟨[("items", ["5000"])], "Mozilla", false⟩)))).length, false⟩ ∧
    ((1000 : Int) < 5000 → min (5000 : Int) 1000 = 1000) ∧
    ((5000 : Int) ≤ 1000 → min (5000 : Int) 1000 = 5000)) :=
  ⟨by decide, by decide, by decide, by decide, by decide, by decide,
    claim_C4_items_clamp exSettings exObf exDatasets exParse exComposed
      ⟨[("items", ["5000"])], "Mozilla", false⟩ "covid19" "caso" exDataset exTable
      (by decide) (by decide) (by decide) 1 5000
      (by decide) (by decide) (by decide)⟩

/-- C2: a CSV export request on an existing dataset and resolvable table
whose parsed querystring yields neither a truthy filter expression nor a
truthy search expression is answered by the rendered 400 error page (the
`400-csv-without-filters` snippet with the dataset's files URL), for every
possible row source — the CSV stream is never produced. -/
theorem claim_C2_csv_requires_filters (S : Settings) (obf : String → String)
    (datasets : String → Option DatasetMeta) (parse_qs : QS → ParsedQuery)
    (composed : ParsedQuery → List Row) (req : Request) (slug tablename : String)
    (d : DatasetMeta) (table : TableMeta)
    (hd : datasets slug = some d) (htn : tablename ≠ "")
    (htab : d.get_table tablename req.is_superuser = some table)
    (p i : Int)
    (hpage : pyInt (pageNumberOf req.params) = some p)
    (hitems : pyInt (itemsStrOf S req.params) = some i)
    (hcsv : downloadCsvOf S req.params = true)
    (hq : (parse_qs (remainingParams S req.params)).query_truthy = false)
    (hs : (parse_qs (remainingParams S req.params)).search_truthy = false) :
    dataset_detail S obf datasets parse_qs composed req slug tablename =
      ⟨.badRequestNoFilters d.files_url, false⟩ ∧
    (dataset_detail S obf datasets parse_qs composed req slug tablename).response.status
      = 400 ∧
    ∀ rows, (dataset_detail S obf datasets parse_qs composed req slug tablename).response
      ≠ Response.csv rows := by
  have h1 : dataset_detail S obf datasets parse_qs composed req slug tablename =
      ⟨.badRequestNoFilters d.files_url, false⟩ := by
    simp [dataset_detail, hd, htn, htab, hpage, hitems, hcsv, hq, hs]
  refine ⟨h1, by rw [h1]; rfl, fun rows => by rw [h1]; simp⟩

/-- Witness for C2: `format=csv` with no further parameters, a normal
user-agent and a two-row table — rejected with the 400 page. -/
theorem claim_C2_csv_requires_filters_witness :
    exDatasets "covid19" = some exDataset ∧
    ("caso" : String) ≠ "" ∧
    exDataset.get_table "caso"
      (Request.is_superuser ⟨[("format", ["csv"])], "Mozilla", false⟩) = some exTable ∧
    pyInt (pageNumberOf (Request.params ⟨[("format", ["csv"])], "Mozilla", false⟩))
      = some 1 ∧
    pyInt (itemsStrOf exSettings (Request.params ⟨[("format", ["csv"])], "Mozilla", false⟩))
      = some 20 ∧
    downloadCsvOf exSettings (Request.params ⟨[("format", ["csv"])], "Mozilla", false⟩)
      = true ∧
    (exParse (remainingParams exSettings
      (Request.params ⟨[("format", ["csv"])], "Mozilla", false⟩))).query_truthy = false ∧
    (exParse (remainingParams exSettings
      (Request.params ⟨[("format", ["csv"])], "Mozilla", false⟩))).search_truthy = false ∧
    (dataset_detail exSettings exObf exDatasets exParse exComposed
        ⟨[("format", ["csv"])], "Mozilla", false⟩ "covid19" "caso" =
      ⟨.badRequestNoFilters exDataset.files_url, false⟩ ∧
    (dataset_detail exSettings exObf exDatasets exParse exComposed
        ⟨[("format", ["csv"])], "Mozilla", false⟩ "covid19" "caso").response.status = 400 ∧
    ∀ rows, (dataset_detail exSettings exObf exDatasets exParse exComposed
        ⟨[("format", ["csv"])], "Mozilla", false⟩ "covid19" "caso").response
      ≠ Response.csv rows) :=
  ⟨by decide, by decide, by decide, by decide, by decide, by decide, by decide, by decide,
    claim_C2_csv_requires_filters exSettings exObf exDatasets exParse exComposed
      ⟨[("format", ["csv"])], "Mozilla", false⟩ "covid19" "caso" exDataset exTable
      (by decide) (by decide) (by decide) 1 20
      (by decide) (by decide) (by decide) (by decide) (by decide)⟩

/-- C8: a CSV export request whose User-Agent header is empty (absent) or
contains a blocked-agent token case-insensitively as a substring is answered
by the rendered 400 error page, and no CSV is streamed. -/
theorem claim_C8_user_agent_guard (S : Settings) (obf : String → String)
    (datasets : String → Option DatasetMeta) (parse_qs : QS → ParsedQuery)
    (composed : ParsedQuery → List Row) (req : Request) (slug tablename : String)
    (d : DatasetMeta) (table : TableMeta)
    (hd : datasets slug = some d) (htn : tablename ≠ "")
    (htab : d.get_table tablename req.is_superuser = some table)
    (p i : Int)
    (hpage : pyInt (pageNumberOf req.params) = some p)
    (hitems : pyInt (itemsStrOf S req.params) = some i)
    (hcsv : downloadCsvOf S req.params = true)
    (hua : req.user_agent = "" ∨ blockAgentOf S req.user_agent = true) :
    dataset_detail S obf datasets parse_qs composed req slug tablename =
      ⟨.badRequestNoFilters d.files_url, false⟩ ∧
    (dataset_detail S obf datasets parse_qs composed req slug tablename).response.status
      = 400 ∧
    ∀ rows, (dataset_detail S obf datasets parse_qs composed req slug tablename).response
      ≠ Response.csv rows := by
  have h1 : dataset_detail S obf datasets parse_qs composed req slug tablename =
      ⟨.badRequestNoFilters d.files_url, false⟩ := by
    rcases hua with h | h <;>
      simp [dataset_detail, hd, htn, htab, hpage, hitems, hcsv, h]
  refine ⟨h1, by rw [h1]; rfl, fun rows => by rw [h1]; simp⟩

/-- Witness for C8: a filtered export from a user-agent containing the
blocked token `bot` (case-insensitively) — rejected with the 400 page. -/
theorem claim_C8_user_agent_guard_witness :
    exDatasets "covid19" = some exDataset ∧
    ("caso" : String) ≠ "" ∧
    exDataset.get_table "caso"
      (Request.is_superuser
        ⟨[("city", ["SP"]), ("format", ["csv"])], "GoogleBot/2.1", false⟩) = some exTable ∧
    pyInt (pageNumberOf (Request.params
      ⟨[("city", ["SP"]), ("format", ["csv"])], "GoogleBot/2.1", false⟩)) = some 1 ∧
    pyInt (itemsStrOf exSettings (Request.params
      ⟨[("city", ["SP"]), ("format", ["csv"])], "GoogleBot/2.1", false⟩)) = some 20 ∧
    downloadCsvOf exSettings (Request.params
      ⟨[("city", ["SP"]), ("format", ["csv"])], "GoogleBot/2.1", false⟩) = true ∧
    (Request.user_agent
        ⟨[("city", ["SP"]), ("format", ["csv"])], "GoogleBot/2.1", false⟩ = "" ∨
      blockAgentOf exSettings (Request.user_agent
        ⟨[("city", ["SP"]), ("format", ["csv"])], "GoogleBot/2.1", false⟩) = true) ∧
    (dataset_detail exSettings exObf exDatasets exParse exComposed
        ⟨[("city", ["SP"]), ("format", ["csv"])], "GoogleBot/2.1", false⟩ "covid19" "caso" =
      ⟨.badRequestNoFilters exDataset.files_url, false⟩ ∧
    (dataset_detail exSettings exObf exDatasets exParse exComposed
        ⟨[("city", ["SP"]), ("format", ["csv"])], "GoogleBot/2.1", false⟩
        "covid19" "caso").response.status = 400 ∧
    ∀ rows, (dataset_detail exSettings exObf exDatasets exParse exComposed
        ⟨[("city", ["SP"]), ("format", ["csv"])], "GoogleBot/2.1", false⟩
        "covid19" "caso").response ≠ Response.csv rows) :=
  ⟨by decide, by decide, by decide, by decide, by decide, by decide, Or.inr (by decide),
    claim_C8_user_agent_guard exSettings exObf exDatasets exParse exComposed
      ⟨[("city", ["SP"]), ("format", ["csv"])], "GoogleBot/2.1", false⟩ "covid19" "caso"
      exDataset exTable
      (by decide) (by decide) (by decide) 1 20
      (by decide) (by decide) (by decide) (Or.inr (by decide))⟩

/-- C3: a CSV export request that passes the filter-presence and user-agent
guards is answered with the 400 "Max rows exceeded." page if and only if the
row source's count strictly exceeds `CSV_EXPORT_MAX_ROWS`; a count at most
the ceiling (in particular exactly the ceiling) streams the CSV. -/
theorem claim_C3_export_ceiling (S : Settings) (obf : String → String)
    (datasets : String → Option DatasetMeta) (parse_qs : QS → ParsedQuery)
    (composed : ParsedQuery → List Row) (req : Request) (slug tablename : String)
    (d : DatasetMeta) (table : TableMeta)
    (hd : datasets slug = some d) (htn : tablename ≠ "")
    (htab : d.get_table tablename req.is_superuser = some table)
    (p i : Int)
    (hpage : pyInt (pageNumberOf req.params) = some p)
    (hitems : pyInt (itemsStrOf S req.params) = some i)
    (hcsv : downloadCsvOf S req.params = true)
    (hfil : (parse_qs (remainingParams S req.params)).query_truthy = true ∨
      (parse_qs (remainingParams S req.params)).search_truthy = true)
    (hua : req.user_agent ≠ "")
    (hblock : blockAgentOf S req.user_agent = false) :
    ((dataset_detail S obf datasets parse_qs composed req slug tablename).response
        = Response.badRequestMaxRows ↔
      S.CSV_EXPORT_MAX_ROWS <
        (composed (parse_qs (remainingParams S req.params))).length) ∧
    ((composed (parse_qs (remainingParams S req.params))).length
        ≤ S.CSV_EXPORT_MAX_ROWS →
      dataset_detail S obf datasets parse_qs composed req slug tablename =
        ⟨Response.csv (queryset_to_csv obf
          (composed (parse_qs (remainingParams S req.params))) table.fields), false⟩) ∧
    Response.status Response.badRequestMaxRows = 400 := by
  by_cases hc : S.CSV_EXPORT_MAX_ROWS <
      (composed (parse_qs (remainingParams S req.params))).length
  · have h1 : dataset_detail S obf datasets parse_qs composed req slug tablename =
        ⟨Response.badRequestMaxRows, false⟩ := by
      rcases hfil with h | h <;>
        simp [dataset_detail, hd, htn, htab, hpage, hitems, hcsv, h, hua, hblock, hc]
    refine ⟨⟨fun _ => hc, fun _ => by rw [h1]⟩, fun hle => absurd hc (not_lt.mpr hle), rfl⟩
  · have h1 : dataset_detail S obf datasets parse_qs composed req slug tablename =
        ⟨Response.csv (queryset_to_csv obf
          (composed (parse_qs (remainingParams S req.params))) table.fields), false⟩ := by
      rcases hfil with h | h <;>
        simp [dataset_detail, hd, htn, htab, hpage, hitems, hcsv, h, hua, hblock, hc]
    refine ⟨⟨fun hr => ?_, fun h => absurd h hc⟩, fun _ => h1, rfl⟩
    rw [h1] at hr
    exact absurd hr (by simp)

/-- Witness for C3: a filtered export whose count (2) equals the ceiling (2)
— the CSV is streamed, and the 400 branch is equivalent to the false
proposition `2 < 2`. -/
theorem claim_C3_export_ceiling_witness :
    exDatasets "covid19" = some exDataset ∧
    ("caso" : String) ≠ "" ∧
    exDataset.get_table "caso"
      (Request.is_superuser
        ⟨[("city", ["SP"]), ("format", ["csv"])], "Mozilla", false⟩) = some exTable ∧
    pyInt (pageNumberOf (Request.params
      ⟨[("city", ["SP"]), ("format", ["csv"])], "Mozilla", false⟩)) = some 1 ∧
    pyInt (itemsStrOf exSettings (Request.params
      ⟨[("city", ["SP"]), ("format", ["csv"])], "Mozilla", false⟩)) = some 20 ∧
    downloadCsvOf exSettings (Request.params
      ⟨[("city", ["SP"]), ("format", ["csv"])], "Mozilla", false⟩) = true ∧
    ((exParse (remainingParams exSettings (Request.params
        ⟨[("city", ["SP"]), ("format", ["csv"])], "Mozilla", false⟩))).query_truthy = true ∨
      (exParse (remainingParams exSettings (Request.params
        ⟨[("city", ["SP"]), ("format", ["csv"])], "Mozilla", false⟩))).search_truthy = true) ∧
    Request.user_agent ⟨[("city", ["SP"]), ("format", ["csv"])], "Mozilla", false⟩ ≠ "" ∧
    blockAgentOf exSettings
      (Request.user_agent ⟨[("city", ["SP"]), ("format", ["csv"])], "Mozilla", false⟩)
      = false ∧
    (((dataset_detail exSettings exObf exDatasets exParse exComposed
        ⟨[("city", ["SP"]), ("format", ["csv"])], "Mozilla", false⟩
        "covid19" "caso").response = Response.badRequestMaxRows ↔
      exSettings.CSV_EXPORT_MAX_ROWS <
        (exComposed (exParse (remainingParams exSettings (Request.params
          ⟨[("city", ["SP"]), ("format", ["csv"])], "Mozilla", false⟩)))).length) ∧
    ((exComposed (exParse (remainingParams exSettings (Request.params
          ⟨[("city", ["SP"]), ("format", ["csv"])], "Mozilla", false⟩)))).length
        ≤ exSettings.CSV_EXPORT_MAX_ROWS →
      dataset_detail exSettings exObf exDatasets exParse exComposed
          ⟨[("city", ["SP"]), ("format", ["csv"])], "Mozilla", false⟩ "covid19" "caso" =
        ⟨Response.csv (queryset_to_csv exObf
          (exComposed (exParse (remainingParams exSettings (Request.params
            ⟨[("city", ["SP"]), ("format", ["csv"])], "Mozilla", false⟩))))
          exTable.fields), false⟩) ∧
    Response.status Response.badRequestMaxRows = 400) :=
  ⟨by decide, by decide, by decide, by decide, by decide, by decide,
    Or.inl (by decide), by decide, by decide,
    claim_C3_export_ceiling exSettings exObf exDatasets exParse exComposed
      ⟨[("city", ["SP"]), ("format", ["csv"])], "Mozilla", false⟩ "covid19" "caso"
      exDataset exTable
      (by decide) (by decide) (by decide) 1 20
      (by decide) (by decide) (by decide) (Or.inl (by decide)) (by decide) (by decide)⟩

/-- C9: with the earlier stages passing, the CSV export path is taken if and
only if the popped `format` value list is exactly `["csv"]`: any other value
list (a repeated `format=csv&format=csv`, a differently-cased `format=CSV`,
or no `format` at all) falls through to the paginated HTML path. -/
theorem claim_C9_format_exact (S : Settings) (obf : String → String)
    (datasets : String → Option DatasetMeta) (parse_qs : QS → ParsedQuery)
    (composed : ParsedQuery → List Row) (req : Request) (slug tablename : String)
    (d : DatasetMeta) (table : TableMeta)
    (hd : datasets slug = some d) (htn : tablename ≠ "")
    (htab : d.get_table tablename req.is_superuser = some table)
    (p i : Int)
    (hpage : pyInt (pageNumberOf req.params) = some p)
    (hitems : pyInt (itemsStrOf S req.params) = some i) :
    (formatValsOf S req.params ≠ ["csv"] →
      dataset_detail S obf datasets parse_qs composed req slug tablename =
        ⟨.html p (min i 1000)
          (composed (parse_qs (remainingParams S req.params))).length, false⟩) ∧
    (formatValsOf S req.params = ["csv"] →
      (dataset_detail S obf datasets parse_qs composed req slug tablename).response
          = .badRequestNoFilters d.files_url ∨
      (dataset_detail S obf datasets parse_qs composed req slug tablename).response
          = .badRequestMaxRows ∨
      (dataset_detail S obf datasets parse_qs composed req slug tablename).response
          = .csv (queryset_to_csv obf
            (composed (parse_qs (remainingParams S req.params))) table.fields)) := by
  constructor
  · intro hne
    have hno : downloadCsvOf S req.params = false := by
      unfold downloadCsvOf
      exact beq_eq_false_iff_ne.mpr hne
    simp [dataset_detail, hd, htn, htab, hpage, hitems, hno]
  · intro heq
    have hyes : downloadCsvOf S req.params = true := by
      unfold downloadCsvOf
      exact beq_iff_eq.mpr heq
    by_cases hg : (((parse_qs (remainingParams S req.params)).query_truthy = false ∧
        (parse_qs (remainingParams S req.params)).search_truthy = false) ∨
        req.user_agent = "") ∨ blockAgentOf S req.user_agent = true
    · left
      simp [dataset_detail, hd, htn, htab, hpage, hitems, hyes, hg]
    · by_cases hc : S.CSV_EXPORT_MAX_ROWS <
          (composed (parse_qs (remainingParams S req.params))).length
      · right; left
        simp [dataset_detail, hd, htn, htab, hpage, hitems, hyes, hg, hc]
      · right; right
        simp [dataset_detail, hd, htn, htab, hpage, hitems, hyes, hg, hc]

/-- Witness for C9: the repeated parameter `format=csv&format=csv` is not an
export request and renders the paginated HTML page. -/
theorem claim_C9_format_exact_witness :
    exDatasets "covid19" = some exDataset ∧
    ("caso" : String) ≠ "" ∧
    exDataset.get_table "caso"
      (Request.is_superuser
        ⟨[("format", ["csv", "csv"])], "Mozilla", false⟩) = some exTable ∧
    pyInt (pageNumberOf (Request.params
      ⟨[("format", ["csv", "csv"])], "Mozilla", false⟩)) = some 1 ∧
    pyInt (itemsStrOf exSettings (Request.params
      ⟨[("format", ["csv", "csv"])], "Mozilla", false⟩)) = some 20 ∧
    ((formatValsOf exSettings (Request.params
        ⟨[("format", ["csv", "csv"])], "Mozilla", false⟩) ≠ ["csv"] →
      dataset_detail exSettings exObf exDatasets exParse exComposed
          ⟨[("format", ["csv", "csv"])], "Mozilla", false⟩ "covid19" "caso" =
        ⟨.html 1 (min 20 1000)
          (exComposed (exParse (remainingParams exSettings (Request.params
            ⟨[("format", ["csv", "csv"])], "Mozilla", false⟩)))).length, false⟩) ∧
    (formatValsOf exSettings (Request.params
        ⟨[("format", ["csv", "csv"])], "Mozilla", false⟩) = ["csv"] →
      (dataset_detail exSettings exObf exDatasets exParse exComposed
          ⟨[("format", ["csv", "csv"])], "Mozilla", false⟩
          "covid19" "caso").response = .badRequestNoFilters exDataset.files_url ∨
      (dataset_detail exSettings exObf exDatasets exParse exComposed
          ⟨[("format", ["csv", "csv"])], "Mozilla", false⟩
          "covid19" "caso").response = .badRequestMaxRows ∨
      (dataset_detail exSettings exObf exDatasets exParse exComposed
          ⟨[("format", ["csv", "csv"])], "Mozilla", false⟩
          "covid19" "caso").response = .csv (queryset_to_csv exObf
            (exComposed (exParse (remainingParams exSettings (Request.params
              ⟨[("format", ["csv", "csv"])], "Mozilla", false⟩))))
            exTable.fields))) :=
  ⟨by decide, by decide, by decide, by decide, by decide,
    claim_C9_format_exact exSettings exObf exDatasets exParse exComposed
      ⟨[("format", ["csv", "csv"])], "Mozilla", false⟩ "covid19" "caso"
      exDataset exTable
      (by decide) (by decide) (by decide) 1 20 (by decide) (by decide)⟩

/-- C10: on a row source that yields no rows, `queryset_to_csv` yields
nothing at all — no header row is ever emitted, so the streamed CSV body
of a zero-row export is completely empty. -/
theorem claim_C10_empty_source (obf : String → String) (fields : List Field) :
    queryset_to_csv obf [] fields = [] := rfl

end CoreViews
